import Mathlib

/-! Ember firmware: the error-message registry (`C++/include/Error.h`).

A shallow embedding of `enum ErrorCode` and of `Error::GetMessage`, followed by
theorems about them.

* The enumerators are integer constants carrying the values written in the header.
* The two function-local statics of `GetMessage` (`initialized`, `messages`) and the
  two diagnostic sinks it writes to (the system log and `std::cerr`) are fields of an
  explicit `State`; `GetMessage` is a state-passing function.
* Ways in which the C++ could go wrong at run time (a null format string, a conversion
  with no matching argument, overrunning `buf`, indexing outside `messages`) are
  results of type `Fault`, so that "the call returns" is a statement to be proved.
* Calls made by several threads are interleavings of the statements of `GetMessage` over the
  shared statics, each statement one atomic step.
-/

namespace Ember

/-! ## `enum ErrorCode` -/

def Success : Int := 0
def SerialNumAccess : Int := 1
def I2cFileOpen : Int := 2
def I2cSlaveAddress : Int := 3
def I2cWrite : Int := 4
def I2cLongString : Int := 5
def I2cReadWrite : Int := 6
def I2cReadRead : Int := 7
def GpioExport : Int := 8
def GpioDirection : Int := 9
def GpioEdge : Int := 10
def GpioInterrupt : Int := 11
def GpioInput : Int := 12
def FileDescriptorInUse : Int := 13
def NoFileDescriptor : Int := 14
def EpollCreate : Int := 15
def EpollSetup : Int := 16
def NegativeNumFiles : Int := 17
def UnexpectedEvent : Int := 18
def GpioUnexport : Int := 19
def InvalidInterrupt : Int := 20
def UnknownEventType : Int := 21
def ExposureTimerCreate : Int := 22
def MotorTimerCreate : Int := 23
def MotorTimeoutTimer : Int := 24
def ExposureTimer : Int := 25
def StatusPipeCreation : Int := 26
def CommandPipeCreation : Int := 27
def WebCommandPipeCreation : Int := 28
def CommandResponsePipeCreation : Int := 29
def StatusToWebPipeOpen : Int := 30
def UnknownTextCommand : Int := 31
def StatusJsonSave : Int := 32
def SendStringToPipeError : Int := 33
def MotorTimeoutError : Int := 34
def FrontPanelError : Int := 35
def MotorError : Int := 36
def UnexpectedMotionEnd : Int := 37
def UnknownMotorEvent : Int := 38
def UnknownMotorStatus : Int := 39
def UnknownFrontPanelStatus : Int := 40
def HardwareNeeded : Int := 41
def UnknownCommandInput : Int := 42
def RemainingExposure : Int := 43
def SdlInit : Int := 44
def SdlSetMode : Int := 45
def SdlHideCursor : Int := 46
def LoadImageError : Int := 47
def NoImageForLayer : Int := 48
def CantShowImage : Int := 49
def CantShowBlack : Int := 50
def CantGetSetting : Int := 51
def CantSetSetting : Int := 52
def CantLoadSettings : Int := 53
def CantRestoreSettings : Int := 54
def CantSaveSettings : Int := 55
def CantWriteSettingsString : Int := 56
def CantReadSettingsString : Int := 57
def NoDefaultSetting : Int := 58
def UnknownSetting : Int := 59
def NoPrintData : Int := 60
def SeparationRpmOutOfRange : Int := 61
def PrintDataStageError : Int := 62
def InvalidPrintData : Int := 63
def PrintDataSettings : Int := 64
def PrintDataMove : Int := 65
def PrintDataRemove : Int := 66
def IllegalStateForPrintData : Int := 67
def UnknownPrintEngineState : Int := 68
def FrontPanelNotReady : Int := 69
def LongFrontPanelString : Int := 70
def UnknownErrorCode : Int := 71

/-- Guardrail for valid error codes: the enumerator without an initialiser, hence one more
than the enumerator before it. -/
def MaxErrorCode : Int := UnknownErrorCode + 1


/-- The enumerators below `MaxErrorCode`, in the order of their declaration. -/
def enumerators : List Int :=
  [Success, SerialNumAccess, I2cFileOpen, I2cSlaveAddress,
   I2cWrite, I2cLongString, I2cReadWrite, I2cReadRead,
   GpioExport, GpioDirection, GpioEdge, GpioInterrupt,
   GpioInput, FileDescriptorInUse, NoFileDescriptor, EpollCreate,
   EpollSetup, NegativeNumFiles, UnexpectedEvent, GpioUnexport,
   InvalidInterrupt, UnknownEventType, ExposureTimerCreate, MotorTimerCreate,
   MotorTimeoutTimer, ExposureTimer, StatusPipeCreation, CommandPipeCreation,
   WebCommandPipeCreation, CommandResponsePipeCreation, StatusToWebPipeOpen, UnknownTextCommand,
   StatusJsonSave, SendStringToPipeError, MotorTimeoutError, FrontPanelError,
   MotorError, UnexpectedMotionEnd, UnknownMotorEvent, UnknownMotorStatus,
   UnknownFrontPanelStatus, HardwareNeeded, UnknownCommandInput, RemainingExposure,
   SdlInit, SdlSetMode, SdlHideCursor, LoadImageError,
   NoImageForLayer, CantShowImage, CantShowBlack, CantGetSetting,
   CantSetSetting, CantLoadSettings, CantRestoreSettings, CantSaveSettings,
   CantWriteSettingsString, CantReadSettingsString, NoDefaultSetting, UnknownSetting,
   NoPrintData, SeparationRpmOutOfRange, PrintDataStageError, InvalidPrintData,
   PrintDataSettings, PrintDataMove, PrintDataRemove, IllegalStateForPrintData,
   UnknownPrintEngineState, FrontPanelNotReady, LongFrontPanelString, UnknownErrorCode]


/-- The assignments `messages[code] = "literal";` of the initialisation pass of
`GetMessage`, in source order. -/
def initAssignments : List (Int × String) :=
  [(Success, "Success"),
   (SerialNumAccess, "Can't access board serial number"),
   (I2cFileOpen, "Couldn't open file in I2C_Device constructor"),
   (I2cSlaveAddress, "Couldn't set slave address in I2C_Device constructor"),
   (I2cWrite, "Error in I2C_Device::Write"),
   (I2cLongString, "String too long for I2C_Device::Write"),
   (I2cReadWrite, "Write error in I2C_Device::Read"),
   (I2cReadRead, "Read error in I2C_Device::Read"),
   (GpioExport, "Unable to export GPIO pin for %d"),
   (GpioDirection, "Unable to open direction handle for %d"),
   (GpioEdge, "Unable to open edge handle for %d"),
   (GpioInterrupt, "Unable to create interrupt %d"),
   (GpioInput, "Unable to open input for %d"),
   (FileDescriptorInUse, "File descriptor for %d already defined"),
   (NoFileDescriptor, "No file descriptor defined for subscription to event type %d"),
   (EpollCreate, "Couldn't create the epoll set"),
   (EpollSetup, "Couldn't set up epoll for %d"),
   (NegativeNumFiles, "Negative number of file descriptors %d"),
   (UnexpectedEvent, "Unexpected event from event type %d"),
   (GpioUnexport, "Unable to open GPIO pin for unexport"),
   (InvalidInterrupt, "Invalid interrupt event type %d"),
   (UnknownEventType, "Unknown event type %d"),
   (ExposureTimerCreate, "Unable to create exposure timer"),
   (MotorTimerCreate, "Unable to create motor timeout timer"),
   (MotorTimeoutTimer, "Unable to set motor timeout timer"),
   (ExposureTimer, "Unable to set exposure timer"),
   (StatusPipeCreation, "Error creating named pipe used for printer status"),
   (CommandPipeCreation, "Error creating named pipe used for command input"),
   (WebCommandPipeCreation, "Error creating named pipe used for web command input"),
   (CommandResponsePipeCreation, "Error creating named pipe for responding to commands"),
   (StatusToWebPipeOpen, "Error opening named pipe for pushing status to web"),
   (UnknownTextCommand, "Unknown command text: '%s'"),
   (StatusJsonSave, "Can't save latest printer status in JSON"),
   (SendStringToPipeError, "Network interface can't send data"),
   (MotorTimeoutError, "Timeout waiting for motor response"),
   (FrontPanelError, "Front panel error"),
   (MotorError, "Motor error"),
   (UnexpectedMotionEnd, "End of motion when none expected"),
   (UnknownMotorEvent, "Unknown pending motor event: %d"),
   (UnknownMotorStatus, "Unknown motor board status: %d"),
   (UnknownFrontPanelStatus, "Unknown front panel status: %d"),
   (HardwareNeeded, "Release build must have hardware!"),
   (UnknownCommandInput, "Unknown command input: %d"),
   (RemainingExposure, "Error reading remaining exposure time"),
   (SdlInit, "Could not initialize screen, SDL error: %s"),
   (SdlSetMode, "Could not set video mode, SDL error: %s"),
   (SdlHideCursor, "Could not hide cursor, SDL error: %s"),
   (LoadImageError, "Error loading image: %s"),
   (NoImageForLayer, "No image for layer %d"),
   (CantShowImage, "Can't show image for layer %d"),
   (CantShowBlack, "Can't clear the screen to black"),
   (CantGetSetting, "Can't get setting: %s"),
   (CantSetSetting, "Can't set setting: %s"),
   (CantLoadSettings, "Can't load settings file: %s"),
   (CantRestoreSettings, "Can't restore settings file: %s"),
   (CantSaveSettings, "Can't save settings file: %s"),
   (CantWriteSettingsString, "Can't write settings to a text string"),
   (CantReadSettingsString, "Can't read settings from a text string"),
   (NoDefaultSetting, "There is no default value for setting: %s"),
   (UnknownSetting, "There is no known setting named: %s"),
   (NoPrintData, "There is no data available to be printed"),
   (SeparationRpmOutOfRange, "Separation RPM offset value (%d) out of range (0-9)"),
   (PrintDataStageError, "Error staging print data"),
   (InvalidPrintData, "Print data invalid"),
   (PrintDataSettings, "Error loading settings from print file"),
   (PrintDataMove, "Error moving print data from staging directory to print data directory"),
   (PrintDataRemove, "Error removing contents of print data directory"),
   (IllegalStateForPrintData, "Printer must be in Home or Idle state to process print data, was in state %s"),
   (UnknownPrintEngineState, "Unknown print engine state: %d"),
   (FrontPanelNotReady, "Timeout awaiting front panel ready"),
   (LongFrontPanelString, "String too long (%d) to be shown on front panel"),
   (UnknownErrorCode, "Unknown error code: %d")]

/-! ## Machine-level data -/

/-- Least value of a 32-bit `int`. -/
def INT_MIN : Int := -2147483648

/-- Greatest value of a 32-bit `int`. -/
def INT_MAX : Int := 2147483647

/-- A value of type `ErrorCode` as `GetMessage` can receive it: any 32-bit integer, since
callers may cast an arbitrary `int` to the enumeration.  (Whether the compiler stores the
enumeration as `int` or as `unsigned int`, the range test of `GetMessage` selects the same
bit patterns and the `%d` conversion prints the same signed numeral, so the signed reading
is used throughout.) -/
structure ErrorCode where
  val : Int
  inRange : INT_MIN ≤ val ∧ val ≤ INT_MAX

/-- Run-time failures of the C++ that the embedding makes explicit. -/
inductive Fault where
  | nullPointer
  | badConversion
  | missingArgument
  | bufferOverflow
  | indexOutOfBounds
  deriving DecidableEq, Repr

/-- Priority `LOG_WARNING` of `<syslog.h>`. -/
def LOG_WARNING : Nat := 4

/-- The statics of `GetMessage` together with the two sinks it writes to.
`messages` holds `const char*` cells: `none` is the null pointer of zero-initialised
static storage. -/
structure State where
  initialized : Bool
  messages : List (Option String)
  syslogSink : List (Nat × String)
  cerrSink : String
  deriving DecidableEq, Repr

/-- The statics before the first call (`initialized = false`, every cell of
`messages[MaxErrorCode]` null), with the given contents of the sinks. -/
def State.fresh (syslogSink : List (Nat × String)) (cerrSink : String) : State :=
  { initialized := false
    messages := List.replicate MaxErrorCode.toNat none
    syslogSink := syslogSink
    cerrSink := cerrSink }

/-! ## `printf`-style formatting -/

/-- The character of a decimal digit. -/
def digitChar (d : Nat) : Char := Char.ofNat (48 + d)

/-- Decimal digits of a natural number, most significant first. -/
def natDigits (n : Nat) : List Char :=
  if n < 10 then [digitChar n] else natDigits (n / 10) ++ [digitChar (n % 10)]
termination_by n
decreasing_by omega

/-- The signed decimal numeral that the conversion `%d` prints for an `int`. -/
def intDigits (i : Int) : List Char :=
  if i < 0 then '-' :: natDigits i.natAbs else natDigits i.natAbs

/-- Expansion of a `printf` format over a list of `int` arguments.  Ordinary characters
are copied, `%d` prints the next argument, `%%` prints a percent sign; every other use
of `%` (including `%d` with no argument left) is reported as a fault. -/
def expandFormat : List Char → List Int → Except Fault (List Char)
  | [], _ => .ok []
  | [c], _ => if c = '%' then .error .badConversion else .ok [c]
  | c :: k :: rest, args =>
    if c = '%' then
      if k = '%' then (expandFormat rest args).map (fun out => '%' :: out)
      else if k = 'd' then
        match args with
        | [] => .error .missingArgument
        | a :: args' => (expandFormat rest args').map (fun out => intDigits a ++ out)
      else .error .badConversion
    else (expandFormat (k :: rest) args).map (fun out => c :: out)

/-- The call `sprintf(buf, format, arg)` for a buffer of `capacity` bytes: the text
written to the buffer, or a fault when `format` is null, is malformed, or the text
with its terminating NUL does not fit. -/
def sprintf (capacity : Nat) (format : Option String) (arg : Int) : Except Fault String :=
  match format with
  | none => .error .nullPointer
  | some fmt =>
    match expandFormat fmt.toList [arg] with
    | .error e => .error e
    | .ok out => if out.length + 1 ≤ capacity then .ok (String.mk out) else .error .bufferOverflow

/-- The text logged by `syslog(priority, format)` called without further arguments. -/
def syslogText (format : String) : Except Fault String :=
  (expandFormat format.toList []).map String.mk

/-! ## `Error::GetMessage` -/

/-- Performing a list of assignments `messages[code] = literal`, first to last. -/
def assignAll (assignments : List (Int × String)) (messages : List (Option String)) :
    List (Option String) :=
  assignments.foldl (fun m a => m.set a.1.toNat (some a.2)) messages

/-- The block guarded by `if(!initialized)`: the assignments in source order, then
`initialized = true`. -/
def initPass (s : State) : State :=
  { s with
    messages := assignAll initAssignments s.messages
    initialized := true }

/-- The `if(!initialized) { ... }` statement at the head of `GetMessage`. -/
def ensureInitialized (s : State) : State :=
  if !s.initialized then initPass s else s

namespace Error

/-- The statements of `GetMessage` that follow the initialisation block: the range test,
the diagnostic path for a code out of range, and the table lookup. -/
def lookupMessage (errorCode : ErrorCode) (s : State) : Except Fault (Option String × State) :=
  if errorCode.val < Success ∨ errorCode.val ≥ MaxErrorCode then
    match s.messages[UnknownErrorCode.toNat]? with
    | none => .error .indexOutOfBounds
    | some format =>
      match sprintf 255 format errorCode.val with
      | .error e => .error e
      | .ok buf =>
        match syslogText buf with
        | .error e => .error e
        | .ok logged =>
          .ok (some "",
            { s with
              syslogSink := s.syslogSink ++ [(LOG_WARNING, logged)]
              cerrSink := s.cerrSink ++ buf ++ "\n" })
  else
    match s.messages[errorCode.val.toNat]? with
    | none => .error .indexOutOfBounds
    | some message => .ok (message, s)

/-- The function `Error::GetMessage(errorCode)`: the returned `const char*` (`none` for a
null pointer) and the state after the call. -/
def GetMessage (errorCode : ErrorCode) (s : State) : Except Fault (Option String × State) :=
  lookupMessage errorCode (ensureInitialized s)

end Error

/-! ## Notions used to state the theorems

None of these is code of the header: they name the states, texts and call sequences the
theorems speak about. -/

/-- The table that the initialisation pass builds: the literals in source order. -/
def initializedMessages : List (Option String) :=
  initAssignments.map (fun a => some a.2)

/-- States of a running program: `messages` has its `MaxErrorCode` cells, and once
`initialized` is set the table holds the literals of the initialisation pass. -/
def State.WellFormed (s : State) : Prop :=
  s.messages.length = MaxErrorCode.toNat ∧
    (s.initialized = true → s.messages = initializedMessages)

instance (s : State) : Decidable s.WellFormed := by
  unfold State.WellFormed
  exact inferInstance

/-- The state `s` with the statics as the initialisation pass leaves them. -/
def State.populated (s : State) : State :=
  { s with initialized := true, messages := initializedMessages }

/-- The text that the diagnostic path formats for a code: the literal head of the
`UnknownErrorCode` template followed by the signed decimal numeral. -/
def unknownCodeText (i : Int) : String :=
  "Unknown error code: " ++ String.mk (intDigits i)

/-- The state after one diagnostic emission of `text`: one warning record appended to the
system log, and `text` followed by `std::endl` appended to the error stream. -/
def State.emit (s : State) (text : String) : State :=
  { s with
    syslogSink := s.syslogSink ++ [(LOG_WARNING, text)]
    cerrSink := s.cerrSink ++ text ++ "\n" }

/-- The number a list of decimal digits denotes. -/
def natValue (digits : List Char) : Nat :=
  digits.foldl (fun acc ch => 10 * acc + (ch.toNat - 48)) 0

/-- The integer a signed decimal numeral denotes. -/
def intValue : List Char → Int
  | [] => 0
  | c :: rest => if c = '-' then -(natValue rest : Int) else (natValue (c :: rest) : Int)

namespace Error

/-- A sequence of calls of `GetMessage`, each on the state the one before left; the
returned strings are dropped. -/
def calls : List ErrorCode → State → Except Fault State
  | [], s => .ok s
  | c :: cs, s =>
    match GetMessage c s with
    | .error e => .error e
    | .ok (_, s') => calls cs s'

end Error

/-- The fixed list of the 72 literals, by index: the eager constant table that the lazily
initialised `messages` is compared with. -/
def TABLE : List String :=
  ["Success",
   "Can't access board serial number",
   "Couldn't open file in I2C_Device constructor",
   "Couldn't set slave address in I2C_Device constructor",
   "Error in I2C_Device::Write",
   "String too long for I2C_Device::Write",
   "Write error in I2C_Device::Read",
   "Read error in I2C_Device::Read",
   "Unable to export GPIO pin for %d",
   "Unable to open direction handle for %d",
   "Unable to open edge handle for %d",
   "Unable to create interrupt %d",
   "Unable to open input for %d",
   "File descriptor for %d already defined",
   "No file descriptor defined for subscription to event type %d",
   "Couldn't create the epoll set",
   "Couldn't set up epoll for %d",
   "Negative number of file descriptors %d",
   "Unexpected event from event type %d",
   "Unable to open GPIO pin for unexport",
   "Invalid interrupt event type %d",
   "Unknown event type %d",
   "Unable to create exposure timer",
   "Unable to create motor timeout timer",
   "Unable to set motor timeout timer",
   "Unable to set exposure timer",
   "Error creating named pipe used for printer status",
   "Error creating named pipe used for command input",
   "Error creating named pipe used for web command input",
   "Error creating named pipe for responding to commands",
   "Error opening named pipe for pushing status to web",
   "Unknown command text: '%s'",
   "Can't save latest printer status in JSON",
   "Network interface can't send data",
   "Timeout waiting for motor response",
   "Front panel error",
   "Motor error",
   "End of motion when none expected",
   "Unknown pending motor event: %d",
   "Unknown motor board status: %d",
   "Unknown front panel status: %d",
   "Release build must have hardware!",
   "Unknown command input: %d",
   "Error reading remaining exposure time",
   "Could not initialize screen, SDL error: %s",
   "Could not set video mode, SDL error: %s",
   "Could not hide cursor, SDL error: %s",
   "Error loading image: %s",
   "No image for layer %d",
   "Can't show image for layer %d",
   "Can't clear the screen to black",
   "Can't get setting: %s",
   "Can't set setting: %s",
   "Can't load settings file: %s",
   "Can't restore settings file: %s",
   "Can't save settings file: %s",
   "Can't write settings to a text string",
   "Can't read settings from a text string",
   "There is no default value for setting: %s",
   "There is no known setting named: %s",
   "There is no data available to be printed",
   "Separation RPM offset value (%d) out of range (0-9)",
   "Error staging print data",
   "Print data invalid",
   "Error loading settings from print file",
   "Error moving print data from staging directory to print data directory",
   "Error removing contents of print data directory",
   "Printer must be in Home or Idle state to process print data, was in state %s",
   "Unknown print engine state: %d",
   "Timeout awaiting front panel ready",
   "String too long (%d) to be shown on front panel",
   "Unknown error code: %d"]

/-- The pure function that `GetMessage` is compared with: `if 0 <= c < 72 then TABLE[c] with
no output else "" with the unknown-code diagnostic`.  The result is the returned string and
the list of diagnostic texts emitted; the numeral is the standard decimal rendering of `c`. -/
def eagerGetMessage (c : Int) : String × List String :=
  if 0 ≤ c ∧ c < 72 then (TABLE[c.toNat]?.getD "", [])
  else ("", ["Unknown error code: " ++ toString c])

/-- Whether every `%` of a text is immediately followed by `d` or by `s`. -/
def conversionsWellFormed : List Char → Bool
  | [] => true
  | [c] => c != '%'
  | c :: k :: rest =>
    (c != '%' || k == 'd' || k == 's') && conversionsWellFormed (k :: rest)

/-! ## Concurrent callers

`GetMessage` takes no lock and its guard is a plain `static bool`.  Calls made by several
threads are modelled statement by statement: a thread is at the guard, inside the guarded
block after some of its assignments, after the block, or has returned, and a schedule names
the thread that executes its next statement.  Every statement is one atomic step on the
shared statics and sinks. -/

/-- Cell `n` of the array holds what the initialisation pass assigns to it. -/
def Populated (m : List (Option String)) (n : Nat) : Prop :=
  m[n]? = initializedMessages[n]?

/-- A state whose flag is set although no cell has been assigned.  No run of the program
reaches it; it tells a skipped initialisation pass from a repeated one. -/
def State.flaggedEmpty : State :=
  { State.fresh [] "" with initialized := true }

/-! ## Lemmas on the enumeration and the table -/

theorem enumerators_eq_range : enumerators = (List.range 72).map Int.ofNat := by decide

theorem initAssignments_codes : initAssignments.map Prod.fst = enumerators := by decide

theorem initAssignments_length : initAssignments.length = 72 := by decide

theorem initAssignments_nonempty : ∀ a ∈ initAssignments, a.2 ≠ "" := by decide

/-- Assigning cells `n, n+1, ...` in order replaces exactly that stretch of the array. -/
theorem foldl_set_in_order (as : List (Int × String)) :
    ∀ (n : Nat) (pre m : List (Option String)),
      as.map Prod.fst = (List.range' n as.length).map Int.ofNat →
      pre.length = n → m.length = as.length →
      as.foldl (fun m a => m.set a.1.toNat (some a.2)) (pre ++ m)
        = pre ++ as.map (fun a => some a.2) := by
  induction as with
  | nil =>
    intro n pre m _ _ hm
    have : m = [] := List.length_eq_zero.mp hm
    simp [this]
  | cons a as ih =>
    intro n pre m hcodes hpre hm
    obtain ⟨x, m', rfl⟩ : ∃ x m', m = x :: m' := by
      cases m with
      | nil => simp at hm
      | cons x m' => exact ⟨x, m', rfl⟩
    simp only [List.map_cons, List.length_cons, List.range'_succ, List.cons.injEq] at hcodes
    obtain ⟨ha, hrest⟩ := hcodes
    have hidx : a.1.toNat = pre.length := by rw [ha, hpre]; rfl
    simp only [List.foldl_cons, List.map_cons, hidx]
    have hset : (pre ++ x :: m').set pre.length (some a.2) = (pre ++ [some a.2]) ++ m' := by
      simp
    rw [hset, ih (n + 1) (pre ++ [some a.2]) m' hrest (by simp [hpre]) (by simpa using hm)]
    simp

theorem initPass_messages (s : State) (h : s.messages.length = MaxErrorCode.toNat) :
    (initPass s).messages = initializedMessages := by
  have hlen : s.messages.length = initAssignments.length := by rw [h]; decide
  have hcodes : initAssignments.map Prod.fst
      = (List.range' 0 initAssignments.length).map Int.ofNat := by
    decide
  have := foldl_set_in_order initAssignments 0 [] s.messages hcodes rfl hlen
  simpa [initPass, assignAll, initializedMessages] using this

/-- The cell of the assignment list at position `n` is the assignment to index `n`. -/
theorem initAssignments_at (n : Nat) (h : n < 72) :
    ∃ t, initAssignments[n]? = some ((n : Int), t) ∧ t ≠ "" := by
  have hlt : n < initAssignments.length := by rw [initAssignments_length]; exact h
  have hkey : (initAssignments.map Prod.fst)[n]? = some (n : Int) := by
    rw [initAssignments_codes, enumerators_eq_range, List.getElem?_map,
      List.getElem?_range h]
    rfl
  rw [List.getElem?_map, List.getElem?_eq_getElem hlt] at hkey
  simp only [Option.map_some', Option.some.injEq] at hkey
  refine ⟨(initAssignments[n]).2, ?_, ?_⟩
  · rw [List.getElem?_eq_getElem hlt, ← hkey]
  · exact initAssignments_nonempty _ (List.getElem_mem hlt)

/-- Every index is assigned at most once: two assignments to one index carry one literal. -/
theorem initAssignments_unique (i : Int) (t t' : String)
    (h : (i, t) ∈ initAssignments) (h' : (i, t') ∈ initAssignments) : t = t' := by
  obtain ⟨n, hn, hget⟩ := List.getElem_of_mem h
  obtain ⟨n', hn', hget'⟩ := List.getElem_of_mem h'
  rw [initAssignments_length] at hn hn'
  obtain ⟨u, hu, _⟩ := initAssignments_at n hn
  obtain ⟨u', hu', _⟩ := initAssignments_at n' hn'
  rw [List.getElem?_eq_getElem (by rw [initAssignments_length]; exact hn), hget] at hu
  rw [List.getElem?_eq_getElem (by rw [initAssignments_length]; exact hn'), hget'] at hu'
  simp only [Option.some.injEq, Prod.mk.injEq] at hu hu'
  have hnn : n = n' := by omega
  subst hnn
  rw [hget] at hget'
  exact (Prod.mk.inj hget').2

theorem initializedMessages_at (n : Nat) (h : n < 72) :
    ∃ t, initializedMessages[n]? = some (some t) ∧ ((n : Int), t) ∈ initAssignments ∧ t ≠ "" := by
  obtain ⟨t, ht, hne⟩ := initAssignments_at n h
  refine ⟨t, ?_, List.getElem?_mem ht, hne⟩
  simp [initializedMessages, List.getElem?_map, ht]

/-! ## Lemmas on formatting -/

theorem digitChar_ne_percent (d : Nat) (h : d < 10) : digitChar d ≠ '%' := by
  have : ∀ d < 10, digitChar d ≠ '%' := by decide
  exact this d h

theorem digitChar_ne_newline (d : Nat) (h : d < 10) : digitChar d ≠ '\n' := by
  have : ∀ d < 10, digitChar d ≠ '\n' := by decide
  exact this d h

theorem natDigits_digit (p : Char → Prop) (hp : ∀ d < 10, p (digitChar d)) (n : Nat) :
    ∀ ch ∈ natDigits n, p ch := by
  induction n using Nat.strong_induction_on with
  | _ n ih =>
    intro ch hch
    rw [natDigits] at hch
    split at hch
    · rename_i hlt
      simp only [List.mem_singleton] at hch
      exact hch ▸ hp n hlt
    · rename_i hge
      rcases List.mem_append.mp hch with h | h
      · exact ih (n / 10) (by omega) ch h
      · simp only [List.mem_singleton] at h
        exact h ▸ hp (n % 10) (by omega)

theorem natDigits_length (k : Nat) : ∀ n, n < 10 ^ (k + 1) → (natDigits n).length ≤ k + 1 := by
  induction k with
  | zero =>
    intro n hn
    rw [natDigits]
    simp at hn
    simp [hn]
  | succ k ih =>
    intro n hn
    rw [natDigits]
    split
    · simp
    · have hdiv : n / 10 < 10 ^ (k + 1) := by
        rw [Nat.div_lt_iff_lt_mul (by decide)]
        calc n < 10 ^ (k + 1 + 1) := hn
          _ = 10 ^ (k + 1) * 10 := by rw [pow_succ]
      have := ih (n / 10) hdiv
      simp only [List.length_append, List.length_singleton]
      omega

/-- The digits printed for `n` denote `n`. -/
theorem natValue_natDigits (n : Nat) : natValue (natDigits n) = n := by
  have hdigit : ∀ d < 10, (digitChar d).toNat - 48 = d := by decide
  induction n using Nat.strong_induction_on with
  | _ n ih =>
    rw [natDigits]
    split
    · rename_i hlt
      simp [natValue, hdigit n hlt]
    · have hrec := ih (n / 10) (by omega)
      simp only [natValue, List.foldl_append, List.foldl_cons, List.foldl_nil] at hrec ⊢
      rw [hrec, hdigit (n % 10) (by omega)]
      omega

/-- The numeral printed for `i` denotes `i`. -/
theorem intValue_intDigits (i : Int) : intValue (intDigits i) = i := by
  unfold intDigits
  split
  · simp only [intValue, if_true, natValue_natDigits]
    omega
  · have hne : ∀ ch ∈ natDigits i.natAbs, ch ≠ '-' :=
      natDigits_digit (fun ch => ch ≠ '-') (by decide) i.natAbs
    have hval := natValue_natDigits i.natAbs
    cases hd : natDigits i.natAbs with
    | nil =>
      rw [hd] at hval
      simp only [natValue, List.foldl_nil] at hval
      simp only [intValue]
      omega
    | cons ch rest =>
      have hch : ch ≠ '-' := hne ch (by rw [hd]; exact List.mem_cons_self _ _)
      rw [hd] at hval
      simp only [intValue, if_neg hch, hval]
      omega

theorem intDigits_length (i : Int) (h : INT_MIN ≤ i ∧ i ≤ INT_MAX) :
    (intDigits i).length ≤ 11 := by
  have habs : i.natAbs < 10 ^ (9 + 1) := by
    simp only [INT_MIN, INT_MAX] at h
    omega
  have := natDigits_length 9 i.natAbs habs
  unfold intDigits
  split <;> simp <;> omega

theorem intDigits_no_percent (i : Int) : '%' ∉ intDigits i := by
  intro hmem
  have hnat : ∀ ch ∈ natDigits i.natAbs, ch ≠ '%' :=
    natDigits_digit (fun ch => ch ≠ '%') digitChar_ne_percent i.natAbs
  unfold intDigits at hmem
  split at hmem
  · rcases List.mem_cons.mp hmem with h | h
    · exact absurd h (by decide)
    · exact hnat _ h rfl
  · exact hnat _ hmem rfl

theorem expandFormat_verbatim (text : List Char) (args : List Int) (h : '%' ∉ text) :
    expandFormat text args = .ok text := by
  induction text with
  | nil => simp [expandFormat]
  | cons c rest ih =>
    have hc : c ≠ '%' := fun e => h (e ▸ List.mem_cons_self _ _)
    have hrest : '%' ∉ rest := fun hm => h (List.mem_cons_of_mem _ hm)
    cases rest with
    | nil => simp [expandFormat, hc]
    | cons k rest =>
      simp only [expandFormat, hc, if_false, ih hrest]
      rfl

theorem expandFormat_unknownErrorCode (i : Int) :
    expandFormat "Unknown error code: %d".toList [i]
      = .ok ("Unknown error code: ".toList ++ intDigits i) := by
  simp [expandFormat, Except.map]

theorem unknownCodeText_no_percent (i : Int) : '%' ∉ (unknownCodeText i).toList := by
  intro hmem
  have hsplit : (unknownCodeText i).toList = "Unknown error code: ".toList ++ intDigits i := rfl
  rw [hsplit] at hmem
  rcases List.mem_append.mp hmem with h | h
  · exact absurd h (by decide)
  · exact intDigits_no_percent i h

theorem unknownCodeText_no_newline (i : Int) : '\n' ∉ (unknownCodeText i).toList := by
  intro hmem
  have hsplit : (unknownCodeText i).toList = "Unknown error code: ".toList ++ intDigits i := rfl
  rw [hsplit] at hmem
  have hnat : ∀ ch ∈ natDigits i.natAbs, ch ≠ '\n' :=
    natDigits_digit (fun ch => ch ≠ '\n') digitChar_ne_newline i.natAbs
  rcases List.mem_append.mp hmem with h | h
  · exact absurd h (by decide)
  · unfold intDigits at h
    split at h
    · rcases List.mem_cons.mp h with h' | h'
      · exact absurd h' (by decide)
      · exact hnat _ h' rfl
    · exact hnat _ h rfl

/-- The `sprintf` call of the diagnostic path, on the template the table holds. -/
theorem sprintf_unknownErrorCode (i : Int) (h : INT_MIN ≤ i ∧ i ≤ INT_MAX) :
    sprintf 255 (some "Unknown error code: %d") i = .ok (unknownCodeText i) := by
  have hlen := intDigits_length i h
  have hfit : ("Unknown error code: ".toList ++ intDigits i).length + 1 ≤ 255 := by
    rw [List.length_append]
    have : "Unknown error code: ".toList.length = 20 := by decide
    omega
  simp only [sprintf, expandFormat_unknownErrorCode, if_pos hfit]
  rfl

/-- The `syslog` call of the diagnostic path logs the formatted text unchanged. -/
theorem syslogText_unknownCodeText (i : Int) :
    syslogText (unknownCodeText i) = .ok (unknownCodeText i) := by
  simp only [syslogText, expandFormat_verbatim _ _ (unknownCodeText_no_percent i)]
  rfl

/-! ## Lemmas on `GetMessage` -/

theorem initializedMessages_unknownErrorCode :
    initializedMessages[UnknownErrorCode.toNat]? = some (some "Unknown error code: %d") := by
  decide

theorem ensureInitialized_eq (s : State) (h : s.WellFormed) :
    ensureInitialized s = s.populated := by
  obtain ⟨hlen, hpop⟩ := h
  unfold ensureInitialized State.populated
  cases hinit : s.initialized with
  | false =>
    have hm := initPass_messages s hlen
    simp only [Bool.not_false, if_true]
    simp only [initPass] at hm ⊢
    rw [hm]
  | true =>
    have hm := hpop hinit
    simp only [Bool.not_true, Bool.false_eq_true, if_false]
    obtain ⟨i, m, sl, ce⟩ := s
    simp only at hm hinit
    subst hm hinit
    rfl

theorem ensureInitialized_of_initialized (s : State) (h : s.initialized = true) :
    ensureInitialized s = s := by
  simp [ensureInitialized, h]

theorem lookupMessage_invalid (c : ErrorCode) (s : State)
    (hm : s.messages = initializedMessages)
    (hc : c.val < Success ∨ MaxErrorCode ≤ c.val) :
    Error.lookupMessage c s = .ok (some "", s.emit (unknownCodeText c.val)) := by
  have hcond : c.val < Success ∨ c.val ≥ MaxErrorCode := hc
  obtain ⟨i, m, sl, ce⟩ := s
  simp only at hm
  subst hm
  simp only [Error.lookupMessage, if_pos hcond, initializedMessages_unknownErrorCode,
    sprintf_unknownErrorCode c.val c.inRange, syslogText_unknownCodeText]
  rfl

theorem lookupMessage_valid (c : ErrorCode) (s : State)
    (hm : s.messages = initializedMessages)
    (hc : Success ≤ c.val ∧ c.val < MaxErrorCode) :
    ∃ t, Error.lookupMessage c s = .ok (some t, s) ∧ (c.val, t) ∈ initAssignments ∧ t ≠ "" := by
  have hcond : ¬ (c.val < Success ∨ c.val ≥ MaxErrorCode) := by
    simp only [Success, MaxErrorCode, UnknownErrorCode] at hc ⊢
    omega
  have hn : c.val.toNat < 72 := by
    simp only [Success, MaxErrorCode, UnknownErrorCode] at hc
    omega
  have hcast : ((c.val.toNat : Nat) : Int) = c.val := by
    simp only [Success] at hc
    omega
  obtain ⟨t, hget, hmem, hne⟩ := initializedMessages_at c.val.toNat hn
  refine ⟨t, ?_, hcast ▸ hmem, hne⟩
  obtain ⟨i, m, sl, ce⟩ := s
  simp only at hm
  subst hm
  simp only [Error.lookupMessage, if_neg hcond, hget]

theorem fresh_wellFormed (syslogSink : List (Nat × String)) (cerrSink : String) :
    (State.fresh syslogSink cerrSink).WellFormed := by
  refine ⟨by simp [State.fresh], ?_⟩
  intro h
  simp [State.fresh] at h

theorem populated_wellFormed (s : State) : s.populated.WellFormed :=
  ⟨by simp only [State.populated]; decide, fun _ => rfl⟩

theorem emit_wellFormed (s : State) (text : String) (h : s.WellFormed) :
    (s.emit text).WellFormed := h

theorem populated_of_initialized (s : State) (hi : s.initialized = true)
    (hm : s.messages = initializedMessages) : s.populated = s := by
  obtain ⟨i, m, sl, ce⟩ := s
  simp only at hi hm
  subst hi hm
  rfl

theorem GetMessage_of_invalid (c : ErrorCode) (s : State) (hs : s.WellFormed)
    (hc : c.val < Success ∨ MaxErrorCode ≤ c.val) :
    Error.GetMessage c s = .ok (some "", s.populated.emit (unknownCodeText c.val)) := by
  rw [Error.GetMessage, ensureInitialized_eq s hs]
  exact lookupMessage_invalid c s.populated rfl hc

theorem GetMessage_of_valid (c : ErrorCode) (s : State) (hs : s.WellFormed)
    (hc : Success ≤ c.val ∧ c.val < MaxErrorCode) :
    ∃ t, Error.GetMessage c s = .ok (some t, s.populated)
      ∧ (c.val, t) ∈ initAssignments ∧ t ≠ "" := by
  rw [Error.GetMessage, ensureInitialized_eq s hs]
  exact lookupMessage_valid c s.populated rfl hc

theorem valid_or_invalid (c : ErrorCode) :
    (Success ≤ c.val ∧ c.val < MaxErrorCode) ∨ (c.val < Success ∨ MaxErrorCode ≤ c.val) := by
  omega

/-- On well-formed states a call returns, and leaves the statics populated. -/
theorem GetMessage_returns (c : ErrorCode) (s : State) (hs : s.WellFormed) :
    ∃ t s', Error.GetMessage c s = .ok (some t, s') ∧ s'.WellFormed
      ∧ s'.initialized = true ∧ s'.messages = initializedMessages := by
  rcases valid_or_invalid c with hc | hc
  · obtain ⟨t, ht, _, _⟩ := GetMessage_of_valid c s hs hc
    exact ⟨t, _, ht, populated_wellFormed s, rfl, rfl⟩
  · exact ⟨"", _, GetMessage_of_invalid c s hs hc,
      emit_wellFormed _ _ (populated_wellFormed s), rfl, rfl⟩

/-- The returned string depends on the code alone. -/
theorem GetMessage_result_unique (c : ErrorCode) (s₁ s₂ : State)
    (h₁ : s₁.WellFormed) (h₂ : s₂.WellFormed) (r₁ r₂ : Option String) (t₁ t₂ : State)
    (e₁ : Error.GetMessage c s₁ = .ok (r₁, t₁)) (e₂ : Error.GetMessage c s₂ = .ok (r₂, t₂)) :
    r₁ = r₂ := by
  rcases valid_or_invalid c with hc | hc
  · obtain ⟨u₁, hu₁, hm₁, _⟩ := GetMessage_of_valid c s₁ h₁ hc
    obtain ⟨u₂, hu₂, hm₂, _⟩ := GetMessage_of_valid c s₂ h₂ hc
    rw [hu₁] at e₁
    rw [hu₂] at e₂
    simp only [Except.ok.injEq, Prod.mk.injEq] at e₁ e₂
    rw [← e₁.1, ← e₂.1, initAssignments_unique c.val u₁ u₂ hm₁ hm₂]
  · rw [GetMessage_of_invalid c s₁ h₁ hc] at e₁
    rw [GetMessage_of_invalid c s₂ h₂ hc] at e₂
    simp only [Except.ok.injEq, Prod.mk.injEq] at e₁ e₂
    rw [← e₁.1, ← e₂.1]

/-- A sequence of calls on a well-formed state returns, in a well-formed state. -/
theorem calls_returns (cs : List ErrorCode) :
    ∀ s : State, s.WellFormed → ∃ s', Error.calls cs s = .ok s' ∧ s'.WellFormed := by
  induction cs with
  | nil => exact fun s hs => ⟨s, rfl, hs⟩
  | cons c cs ih =>
    intro s hs
    obtain ⟨t, s₁, h₁, hwf, _, _⟩ := GetMessage_returns c s hs
    obtain ⟨s', h', hwf'⟩ := ih s₁ hwf
    exact ⟨s', by simp only [Error.calls, h₁, h'], hwf'⟩

/-! ## The registry's contract -/

/-- C1: for every error code `c` with `Success <= c < MaxErrorCode`, `GetMessage(c)` returns
a non-null, non-empty template, which is the string literal assigned to `messages[c]` in the
initialisation pass; that index is assigned there, and by one literal only. -/
theorem GetMessage_valid_returns_assigned_literal (c : ErrorCode) (s : State)
    (hs : s.WellFormed) (hc : Success ≤ c.val ∧ c.val < MaxErrorCode) :
    ∃ t s', Error.GetMessage c s = .ok (some t, s') ∧ t ≠ ""
      ∧ (c.val, t) ∈ initAssignments
      ∧ ∀ t', (c.val, t') ∈ initAssignments → t' = t := by
  obtain ⟨t, ht, hmem, hne⟩ := GetMessage_of_valid c s hs hc
  exact ⟨t, _, ht, hne, hmem, fun t' h' => initAssignments_unique c.val t' t h' hmem⟩

theorem GetMessage_valid_returns_assigned_literal_witness :
    (State.fresh [] "").WellFormed ∧ (Success ≤ (8 : Int) ∧ (8 : Int) < MaxErrorCode)
      ∧ ∃ t s', Error.GetMessage ⟨8, by decide⟩ (State.fresh [] "") = .ok (some t, s')
        ∧ t ≠ "" ∧ ((8 : Int), t) ∈ initAssignments
        ∧ ∀ t', ((8 : Int), t') ∈ initAssignments → t' = t :=
  ⟨fresh_wellFormed [] "", by decide,
    GetMessage_valid_returns_assigned_literal ⟨8, by decide⟩ (State.fresh [] "")
      (fresh_wellFormed [] "") (by decide)⟩

/-- C2: for every code `c` with `c < Success` or `c >= MaxErrorCode`, `GetMessage(c)` does not
fail and returns the empty string; hence for every code whatsoever `GetMessage` returns a
(non-null) string. -/
theorem GetMessage_invalid_returns_empty (c : ErrorCode) (s : State) (hs : s.WellFormed) :
    ((c.val < Success ∨ MaxErrorCode ≤ c.val) →
        ∃ s', Error.GetMessage c s = .ok (some "", s'))
      ∧ ∃ t s', Error.GetMessage c s = .ok (some t, s') := by
  constructor
  · intro hc
    exact ⟨_, GetMessage_of_invalid c s hs hc⟩
  · obtain ⟨t, s', h, _⟩ := GetMessage_returns c s hs
    exact ⟨t, s', h⟩

theorem GetMessage_invalid_returns_empty_witness :
    (State.fresh [] "").WellFormed
      ∧ (((-1 : Int) < Success ∨ MaxErrorCode ≤ (-1 : Int)) →
          ∃ s', Error.GetMessage ⟨-1, by decide⟩ (State.fresh [] "") = .ok (some "", s'))
      ∧ ∃ t s', Error.GetMessage ⟨-1, by decide⟩ (State.fresh [] "") = .ok (some t, s') :=
  ⟨fresh_wellFormed [] "",
    GetMessage_invalid_returns_empty ⟨-1, by decide⟩ (State.fresh [] "")
      (fresh_wellFormed [] "")⟩

/-- C3: for every code `c` with `c < Success` or `c >= MaxErrorCode`, one call of
`GetMessage(c)` produces exactly one diagnostic emission (one record more in the system log,
one line more on standard error), and the emitted text contains the decimal numeral of `c`
(the digits `intDigits c`, which denote `c`). -/
theorem GetMessage_invalid_emits_once (c : ErrorCode) (s : State) (hs : s.WellFormed)
    (hc : c.val < Success ∨ MaxErrorCode ≤ c.val) :
    ∃ r s' text, Error.GetMessage c s = .ok (r, s')
      ∧ s'.syslogSink = s.syslogSink ++ [(LOG_WARNING, text)]
      ∧ s'.cerrSink = s.cerrSink ++ text ++ "\n"
      ∧ '\n' ∉ text.toList
      ∧ intDigits c.val <:+: text.toList
      ∧ intValue (intDigits c.val) = c.val := by
  refine ⟨_, _, unknownCodeText c.val, GetMessage_of_invalid c s hs hc, rfl, rfl, ?_, ?_,
    intValue_intDigits c.val⟩
  · exact unknownCodeText_no_newline c.val
  · exact ⟨"Unknown error code: ".toList, [], by simp [unknownCodeText]⟩

theorem GetMessage_invalid_emits_once_witness :
    (State.fresh [] "").WellFormed ∧ ((100 : Int) < Success ∨ MaxErrorCode ≤ (100 : Int))
      ∧ ∃ r s' text, Error.GetMessage ⟨100, by decide⟩ (State.fresh [] "") = .ok (r, s')
        ∧ s'.syslogSink = (State.fresh [] "").syslogSink ++ [(LOG_WARNING, text)]
        ∧ s'.cerrSink = (State.fresh [] "").cerrSink ++ text ++ "\n"
        ∧ '\n' ∉ text.toList
        ∧ intDigits (100 : Int) <:+: text.toList
        ∧ intValue (intDigits (100 : Int)) = 100 :=
  ⟨fresh_wellFormed [] "", by decide,
    GetMessage_invalid_emits_once ⟨100, by decide⟩ (State.fresh [] "")
      (fresh_wellFormed [] "") (by decide)⟩

/-- C4: for every out-of-range code `c` the diagnostic text is the `UnknownErrorCode` template
with `c` substituted for `%d`, that is `"Unknown error code: "` followed by the signed decimal
numeral of `c`; the system log and standard error both receive this text; and for
`c = MaxErrorCode` the text is `"Unknown error code: 72"`. -/
theorem GetMessage_invalid_diagnostic_text (c : ErrorCode) (s : State) (hs : s.WellFormed)
    (hc : c.val < Success ∨ MaxErrorCode ≤ c.val) :
    ∃ template text r s',
      (UnknownErrorCode, template) ∈ initAssignments
      ∧ sprintf 255 (some template) c.val = .ok text
      ∧ text = "Unknown error code: " ++ String.mk (intDigits c.val)
      ∧ Error.GetMessage c s = .ok (r, s')
      ∧ s'.syslogSink = s.syslogSink ++ [(LOG_WARNING, text)]
      ∧ s'.cerrSink = s.cerrSink ++ text ++ "\n"
      ∧ (c.val = MaxErrorCode → text = "Unknown error code: 72") := by
  refine ⟨"Unknown error code: %d", unknownCodeText c.val, _, _, by decide,
    sprintf_unknownErrorCode c.val c.inRange, rfl, GetMessage_of_invalid c s hs hc, rfl, rfl, ?_⟩
  intro h
  rw [h]
  simp [unknownCodeText, MaxErrorCode, UnknownErrorCode, intDigits, natDigits, digitChar]

theorem GetMessage_invalid_diagnostic_text_witness :
    (State.fresh [] "").WellFormed ∧ ((72 : Int) < Success ∨ MaxErrorCode ≤ (72 : Int))
      ∧ ∃ template text r s',
        (UnknownErrorCode, template) ∈ initAssignments
        ∧ sprintf 255 (some template) (72 : Int) = .ok text
        ∧ text = "Unknown error code: " ++ String.mk (intDigits (72 : Int))
        ∧ Error.GetMessage ⟨72, by decide⟩ (State.fresh [] "") = .ok (r, s')
        ∧ s'.syslogSink = (State.fresh [] "").syslogSink ++ [(LOG_WARNING, text)]
        ∧ s'.cerrSink = (State.fresh [] "").cerrSink ++ text ++ "\n"
        ∧ ((72 : Int) = MaxErrorCode → text = "Unknown error code: 72") :=
  ⟨fresh_wellFormed [] "", by decide,
    GetMessage_invalid_diagnostic_text ⟨72, by decide⟩ (State.fresh [] "")
      (fresh_wellFormed [] "") (by decide)⟩

/-- C5: the documented lookups: `GetMessage(Success)` is `"Success"`, `GetMessage(GpioExport)`
is `"Unable to export GPIO pin for %d"`, and `GetMessage(UnknownTextCommand)` is
`"Unknown command text: '%s'"`. -/
theorem GetMessage_documented_lookups (s : State) (hs : s.WellFormed) :
    (∃ s', Error.GetMessage ⟨Success, by decide⟩ s = .ok (some "Success", s'))
      ∧ (∃ s', Error.GetMessage ⟨GpioExport, by decide⟩ s
          = .ok (some "Unable to export GPIO pin for %d", s'))
      ∧ (∃ s', Error.GetMessage ⟨UnknownTextCommand, by decide⟩ s
          = .ok (some "Unknown command text: '%s'", s')) := by
  refine ⟨?_, ?_, ?_⟩
  · obtain ⟨t, ht, hmem, _⟩ := GetMessage_of_valid ⟨Success, by decide⟩ s hs (by decide)
    have : t = "Success" := initAssignments_unique Success _ _ hmem (by decide)
    exact ⟨_, this ▸ ht⟩
  · obtain ⟨t, ht, hmem, _⟩ := GetMessage_of_valid ⟨GpioExport, by decide⟩ s hs (by decide)
    have : t = "Unable to export GPIO pin for %d" :=
      initAssignments_unique GpioExport _ _ hmem (by decide)
    exact ⟨_, this ▸ ht⟩
  · obtain ⟨t, ht, hmem, _⟩ :=
      GetMessage_of_valid ⟨UnknownTextCommand, by decide⟩ s hs (by decide)
    have : t = "Unknown command text: '%s'" :=
      initAssignments_unique UnknownTextCommand _ _ hmem (by decide)
    exact ⟨_, this ▸ ht⟩

theorem GetMessage_documented_lookups_witness :
    (State.fresh [] "").WellFormed
      ∧ (∃ s', Error.GetMessage ⟨Success, by decide⟩ (State.fresh [] "")
          = .ok (some "Success", s'))
      ∧ (∃ s', Error.GetMessage ⟨GpioExport, by decide⟩ (State.fresh [] "")
          = .ok (some "Unable to export GPIO pin for %d", s'))
      ∧ (∃ s', Error.GetMessage ⟨UnknownTextCommand, by decide⟩ (State.fresh [] "")
          = .ok (some "Unknown command text: '%s'", s')) :=
  ⟨fresh_wellFormed [] "",
    GetMessage_documented_lookups (State.fresh [] "") (fresh_wellFormed [] "")⟩

/-- C6: `GetMessage` is stable across repeated calls: for every code `c` and every sequence of
earlier calls (with any arguments, valid or not) on a fresh registry, the earlier calls
return, and a later call `GetMessage(c)` returns the same string as the very first call
`GetMessage(c)` made on the fresh registry. -/
theorem GetMessage_stable (c : ErrorCode) (earlier : List ErrorCode)
    (syslogSink : List (Nat × String)) (cerrSink : String) :
    ∃ r first later after,
      Error.GetMessage c (State.fresh syslogSink cerrSink) = .ok (r, first)
      ∧ Error.calls earlier (State.fresh syslogSink cerrSink) = .ok later
      ∧ Error.GetMessage c later = .ok (r, after) := by
  have hfresh := fresh_wellFormed syslogSink cerrSink
  obtain ⟨t, first, hfirst, _⟩ := GetMessage_returns c _ hfresh
  obtain ⟨later, hlater, hwf⟩ := calls_returns earlier _ hfresh
  obtain ⟨u, after, hafter, _⟩ := GetMessage_returns c later hwf
  have : some u = some t :=
    GetMessage_result_unique c later _ hwf hfresh _ _ _ _ hafter hfirst
  exact ⟨some t, first, later, after, hfirst, hlater, this ▸ hafter⟩

/-- C7: for every valid code `c` (`Success <= c < MaxErrorCode`), `UnknownErrorCode` (71)
among them, a call `GetMessage(c)` emits nothing to either diagnostic sink, and on a registry
that is already initialised it changes no state at all. -/
theorem GetMessage_valid_no_effect (c : ErrorCode) (s : State) (hs : s.WellFormed)
    (hc : Success ≤ c.val ∧ c.val < MaxErrorCode) :
    (Success ≤ UnknownErrorCode ∧ UnknownErrorCode < MaxErrorCode ∧ UnknownErrorCode = 71)
      ∧ ∃ r s', Error.GetMessage c s = .ok (r, s')
        ∧ s'.syslogSink = s.syslogSink
        ∧ s'.cerrSink = s.cerrSink
        ∧ (s.initialized = true → s' = s) := by
  obtain ⟨t, ht, _, _⟩ := GetMessage_of_valid c s hs hc
  refine ⟨by decide, some t, s.populated, ht, rfl, rfl, ?_⟩
  intro hi
  exact populated_of_initialized s hi (hs.2 hi)

theorem GetMessage_valid_no_effect_witness :
    (State.fresh [(LOG_WARNING, "earlier")] "earlier\n").populated.WellFormed
      ∧ (Success ≤ (71 : Int) ∧ (71 : Int) < MaxErrorCode)
      ∧ (Success ≤ UnknownErrorCode ∧ UnknownErrorCode < MaxErrorCode ∧ UnknownErrorCode = 71)
      ∧ ∃ r s', Error.GetMessage ⟨71, by decide⟩
            (State.fresh [(LOG_WARNING, "earlier")] "earlier\n").populated = .ok (r, s')
        ∧ s'.syslogSink = (State.fresh [(LOG_WARNING, "earlier")] "earlier\n").populated.syslogSink
        ∧ s'.cerrSink = (State.fresh [(LOG_WARNING, "earlier")] "earlier\n").populated.cerrSink
        ∧ ((State.fresh [(LOG_WARNING, "earlier")] "earlier\n").populated.initialized = true →
            s' = (State.fresh [(LOG_WARNING, "earlier")] "earlier\n").populated) :=
  ⟨populated_wellFormed _, by decide,
    GetMessage_valid_no_effect ⟨71, by decide⟩
      (State.fresh [(LOG_WARNING, "earlier")] "earlier\n").populated
      (populated_wellFormed _) (by decide)⟩

/-- C8: the enumeration is contiguous and ordered, without gaps or duplicates: the named
values below `MaxErrorCode`, in declaration order, are exactly 0, 1, ..., 71 once each
(`Success` is 0, `UnknownErrorCode` is 71), and the sentinel `MaxErrorCode` is 72, the
number of cells of the message table. -/
theorem ErrorCode_contiguous :
    enumerators = (List.range 72).map Int.ofNat
      ∧ enumerators.Nodup
      ∧ enumerators.length = 72
      ∧ enumerators.head? = some Success ∧ Success = 0
      ∧ enumerators.getLast? = some UnknownErrorCode ∧ UnknownErrorCode = 71
      ∧ MaxErrorCode = 72
      ∧ (∀ syslogSink cerrSink,
          ((State.fresh syslogSink cerrSink).messages.length : Int) = MaxErrorCode) := by
  refine ⟨by decide, by decide, by decide, by decide, by decide, by decide, by decide,
    by decide, ?_⟩
  intro syslogSink cerrSink
  simp [State.fresh, MaxErrorCode, UnknownErrorCode]

/-! ## Lemmas on the templates -/

/-- The checker `conversionsWellFormed` is sound for the statement about occurrences of `%`. -/
theorem conversionsWellFormed_sound (text : List Char) (h : conversionsWellFormed text = true) :
    ∀ pre post, text = pre ++ '%' :: post →
      ∃ rest, post = 'd' :: rest ∨ post = 's' :: rest := by
  intro pre
  induction pre generalizing text with
  | nil =>
    intro post heq
    subst heq
    cases post with
    | nil => simp [conversionsWellFormed] at h
    | cons k rest =>
      simp only [List.nil_append, conversionsWellFormed, Bool.and_eq_true, Bool.or_eq_true,
        bne_iff_ne, ne_eq, not_true_eq_false, false_or, beq_iff_eq] at h
      rcases h.1 with hk | hk
      · exact ⟨rest, Or.inl (by rw [hk])⟩
      · exact ⟨rest, Or.inr (by rw [hk])⟩
  | cons p pre ih =>
    intro post heq
    subst heq
    have hrest : conversionsWellFormed (pre ++ '%' :: post) = true := by
      cases hpre : pre ++ '%' :: post with
      | nil => rfl
      | cons k rest =>
        have h' := h
        simp only [List.cons_append, hpre, conversionsWellFormed, Bool.and_eq_true] at h'
        exact h'.2
    exact ih _ hrest post rfl

theorem initAssignments_conversions :
    ∀ a ∈ initAssignments,
      conversionsWellFormed a.2.toList = true ∧ a.2.toList.count '%' ≤ 1 := by
  decide

theorem TABLE_eq : TABLE = initAssignments.map Prod.snd := by decide

theorem initAssignments_literals_nodup : (initAssignments.map Prod.snd).Nodup := by decide

/-! ## Lemmas on the standard decimal rendering -/

theorem toDigitsCore_eq_natDigits (fuel : Nat) :
    ∀ (n : Nat) (ds : List Char), n < fuel →
      Nat.toDigitsCore 10 fuel n ds = natDigits n ++ ds := by
  have hdigit : ∀ d < 10, Nat.digitChar d = digitChar d := by decide
  induction fuel with
  | zero => intro n ds h; omega
  | succ fuel ih =>
    intro n ds h
    rw [natDigits]
    simp only [Nat.toDigitsCore]
    by_cases hn : n < 10
    · have hz : n / 10 = 0 := by omega
      have hm : n % 10 = n := by omega
      simp [hz, hm, hn, hdigit n hn]
    · have hz : ¬ n / 10 = 0 := by omega
      rw [if_neg hz, if_neg hn, ih (n / 10) _ (by omega), hdigit (n % 10) (by omega)]
      simp

theorem toString_nat_eq_natDigits (n : Nat) : toString n = String.mk (natDigits n) := by
  show Nat.repr n = _
  simp [Nat.repr, Nat.toDigits, toDigitsCore_eq_natDigits (n + 1) n [] (by omega),
    List.asString]

/-- The numeral of the `%d` conversion is the standard decimal rendering of the integer. -/
theorem toString_int_eq_intDigits (i : Int) : toString i = String.mk (intDigits i) := by
  cases i with
  | ofNat m =>
    show toString m = _
    have hnn : ¬ (Int.ofNat m < 0) := by simp
    simp only [intDigits, if_neg hnn, toString_nat_eq_natDigits]
    rfl
  | negSucc m =>
    show "-" ++ toString (m + 1) = _
    have hneg : Int.negSucc m < 0 := Int.negSucc_lt_zero m
    simp only [intDigits, if_pos hneg, toString_nat_eq_natDigits]
    rfl

theorem unknownCodeText_eq (i : Int) :
    unknownCodeText i = "Unknown error code: " ++ toString i := by
  rw [toString_int_eq_intDigits, unknownCodeText]

theorem ErrorCode.eq_of_val_eq (a b : ErrorCode) (h : a.val = b.val) : a = b := by
  cases a
  cases b
  simp only at h
  subst h
  rfl

/-- No two assignments of the initialisation pass carry the same literal. -/
theorem initAssignments_injective (i j : Int) (t : String)
    (hi : (i, t) ∈ initAssignments) (hj : (j, t) ∈ initAssignments) : i = j := by
  have := List.inj_on_of_nodup_map initAssignments_literals_nodup hi hj rfl
  exact (Prod.mk.inj this).1

theorem TABLE_at (n : Nat) (t : String) (h : ((n : Int), t) ∈ initAssignments) (hn : n < 72) :
    TABLE[n]? = some t := by
  obtain ⟨u, hu, _⟩ := initAssignments_at n hn
  have : u = t := initAssignments_unique (n : Int) u t (List.getElem?_mem hu) h
  rw [TABLE_eq, List.getElem?_map, hu, this]
  rfl

/-- C11: every template in the table is a well-formed format string of at most one argument:
each `%` in any of the 72 templates is immediately followed by `d` or `s`, and each template
holds at most one such conversion specifier (at most one `%`). -/
theorem templates_single_conversion (syslogSink : List (Nat × String)) (cerrSink : String)
    (t : String) (h : some t ∈ (initPass (State.fresh syslogSink cerrSink)).messages) :
    (initPass (State.fresh syslogSink cerrSink)).messages.length = 72
      ∧ (∀ pre post, t.toList = pre ++ '%' :: post →
          ∃ rest, post = 'd' :: rest ∨ post = 's' :: rest)
      ∧ t.toList.count '%' ≤ 1 := by
  have hm := initPass_messages _ (fresh_wellFormed syslogSink cerrSink).1
  rw [hm] at h ⊢
  obtain ⟨a, ha, hat⟩ := List.mem_map.mp h
  have ht : a.2 = t := Option.some.inj hat
  obtain ⟨hwf, hcount⟩ := initAssignments_conversions a ha
  rw [ht] at hwf hcount
  exact ⟨by decide, conversionsWellFormed_sound _ hwf, hcount⟩

theorem templates_single_conversion_witness :
    some "Unable to export GPIO pin for %d" ∈ (initPass (State.fresh [] "")).messages
      ∧ (initPass (State.fresh [] "")).messages.length = 72
      ∧ (∀ pre post, "Unable to export GPIO pin for %d".toList = pre ++ '%' :: post →
          ∃ rest, post = 'd' :: rest ∨ post = 's' :: rest)
      ∧ "Unable to export GPIO pin for %d".toList.count '%' ≤ 1 :=
  ⟨by rw [initPass_messages _ (fresh_wellFormed [] "").1]; decide,
    templates_single_conversion [] "" "Unable to export GPIO pin for %d"
      (by rw [initPass_messages _ (fresh_wellFormed [] "").1]; decide)⟩

/-- C12: the lazily initialised `GetMessage` refines the eager constant table: for every code
`c`, from a fresh registry as from one initialised by an earlier call, the returned string
and the diagnostics emitted to the two sinks are those of the pure function
`eagerGetMessage` over `TABLE`. -/
theorem GetMessage_refines_eager (c : ErrorCode) (s : State) (hs : s.WellFormed) :
    ∃ s', Error.GetMessage c s = .ok (some (eagerGetMessage c.val).1, s')
      ∧ s'.syslogSink
          = s.syslogSink ++ (eagerGetMessage c.val).2.map (fun text => (LOG_WARNING, text))
      ∧ s'.cerrSink
          = (eagerGetMessage c.val).2.foldl (fun out text => out ++ text ++ "\n") s.cerrSink := by
  rcases valid_or_invalid c with hc | hc
  · obtain ⟨t, ht, hmem, _⟩ := GetMessage_of_valid c s hs hc
    have hrange : 0 ≤ c.val ∧ c.val < 72 := by
      simp only [Success, MaxErrorCode, UnknownErrorCode] at hc
      omega
    have hcast : ((c.val.toNat : Nat) : Int) = c.val := by omega
    have hcell : TABLE[c.val.toNat]? = some t :=
      TABLE_at c.val.toNat t (hcast.symm ▸ hmem) (by omega)
    refine ⟨s.populated, ?_, ?_, ?_⟩
    · rw [ht]
      simp [eagerGetMessage, hrange, hcell]
    · simp [eagerGetMessage, hrange, State.populated]
    · simp [eagerGetMessage, hrange, State.populated]
  · have hrange : ¬ (0 ≤ c.val ∧ c.val < 72) := by
      simp only [Success, MaxErrorCode, UnknownErrorCode] at hc
      omega
    have hspec : eagerGetMessage c.val = ("", [unknownCodeText c.val]) := by
      simp [eagerGetMessage, hrange, unknownCodeText_eq]
    rw [hspec]
    exact ⟨_, GetMessage_of_invalid c s hs hc, rfl, rfl⟩

theorem GetMessage_refines_eager_witness :
    (State.fresh [] "").WellFormed
      ∧ ∃ s', Error.GetMessage ⟨72, by decide⟩ (State.fresh [] "")
          = .ok (some (eagerGetMessage 72).1, s')
        ∧ s'.syslogSink = (State.fresh [] "").syslogSink
            ++ (eagerGetMessage 72).2.map (fun text => (LOG_WARNING, text))
        ∧ s'.cerrSink = (eagerGetMessage 72).2.foldl (fun out text => out ++ text ++ "\n")
            (State.fresh [] "").cerrSink :=
  ⟨fresh_wellFormed [] "",
    GetMessage_refines_eager ⟨72, by decide⟩ (State.fresh [] "") (fresh_wellFormed [] "")⟩

/-- C13: `GetMessage` is injective on valid codes: for valid codes `a` and `b` the two calls
return templates, and if the templates are equal as strings then `a = b`. -/
theorem GetMessage_injective (a b : ErrorCode) (s₁ s₂ : State)
    (h₁ : s₁.WellFormed) (h₂ : s₂.WellFormed)
    (ha : Success ≤ a.val ∧ a.val < MaxErrorCode)
    (hb : Success ≤ b.val ∧ b.val < MaxErrorCode) :
    ∃ ta tb sa sb, Error.GetMessage a s₁ = .ok (some ta, sa)
      ∧ Error.GetMessage b s₂ = .ok (some tb, sb)
      ∧ (ta = tb → a = b) := by
  obtain ⟨ta, hta, hma, _⟩ := GetMessage_of_valid a s₁ h₁ ha
  obtain ⟨tb, htb, hmb, _⟩ := GetMessage_of_valid b s₂ h₂ hb
  refine ⟨ta, tb, _, _, hta, htb, ?_⟩
  intro heq
  exact ErrorCode.eq_of_val_eq a b (initAssignments_injective a.val b.val ta hma (heq ▸ hmb))

theorem GetMessage_injective_witness :
    (State.fresh [] "").WellFormed ∧ (State.fresh [] "").populated.WellFormed
      ∧ (Success ≤ (9 : Int) ∧ (9 : Int) < MaxErrorCode)
      ∧ (Success ≤ (10 : Int) ∧ (10 : Int) < MaxErrorCode)
      ∧ ∃ ta tb sa sb, Error.GetMessage ⟨9, by decide⟩ (State.fresh [] "") = .ok (some ta, sa)
        ∧ Error.GetMessage ⟨10, by decide⟩ (State.fresh [] "").populated = .ok (some tb, sb)
        ∧ (ta = tb → (⟨9, by decide⟩ : ErrorCode) = ⟨10, by decide⟩) :=
  ⟨fresh_wellFormed [] "", populated_wellFormed _, by decide, by decide,
    GetMessage_injective ⟨9, by decide⟩ ⟨10, by decide⟩ (State.fresh [] "")
      (State.fresh [] "").populated (fresh_wellFormed [] "") (populated_wellFormed _)
      (by decide) (by decide)⟩

/-- C15: for every out-of-range code `c` the formatted diagnostic text holds no `%`, so
`syslog`, which takes it as its format string, logs it unchanged: the text written to the
system log is the text written to standard error. -/
theorem diagnostic_logged_verbatim (c : ErrorCode) (s : State) (hs : s.WellFormed)
    (hc : c.val < Success ∨ MaxErrorCode ≤ c.val) :
    ∃ buf logged r s', sprintf 255 (some "Unknown error code: %d") c.val = .ok buf
      ∧ '%' ∉ buf.toList
      ∧ syslogText buf = .ok logged
      ∧ logged = buf
      ∧ Error.GetMessage c s = .ok (r, s')
      ∧ s'.syslogSink = s.syslogSink ++ [(LOG_WARNING, logged)]
      ∧ s'.cerrSink = s.cerrSink ++ buf ++ "\n" :=
  ⟨unknownCodeText c.val, unknownCodeText c.val, _, _,
    sprintf_unknownErrorCode c.val c.inRange, unknownCodeText_no_percent c.val,
    syslogText_unknownCodeText c.val, rfl, GetMessage_of_invalid c s hs hc, rfl, rfl⟩

theorem diagnostic_logged_verbatim_witness :
    (State.fresh [] "").WellFormed ∧ ((-1 : Int) < Success ∨ MaxErrorCode ≤ (-1 : Int))
      ∧ ∃ buf logged r s', sprintf 255 (some "Unknown error code: %d") (-1 : Int) = .ok buf
        ∧ '%' ∉ buf.toList
        ∧ syslogText buf = .ok logged
        ∧ logged = buf
        ∧ Error.GetMessage ⟨-1, by decide⟩ (State.fresh [] "") = .ok (r, s')
        ∧ s'.syslogSink = (State.fresh [] "").syslogSink ++ [(LOG_WARNING, logged)]
        ∧ s'.cerrSink = (State.fresh [] "").cerrSink ++ buf ++ "\n" :=
  ⟨fresh_wellFormed [] "", by decide,
    diagnostic_logged_verbatim ⟨-1, by decide⟩ (State.fresh [] "")
      (fresh_wellFormed [] "") (by decide)⟩

/-! ## Lemmas on concurrent callers -/

theorem populated_of_eq (m : List (Option String)) (h : m = initializedMessages) (n : Nat) :
    Populated m n := by
  rw [h, Populated]

/-- The statements after the guarded block never write the statics. -/
theorem lookupMessage_statics (c : ErrorCode) (s : State) (r : Option String) (s' : State)
    (h : Error.lookupMessage c s = .ok (r, s')) :
    s'.initialized = s.initialized ∧ s'.messages = s.messages := by
  unfold Error.lookupMessage at h
  split at h
  · split at h
    · cases h
    · split at h
      · cases h
      · split at h
        · cases h
        · simp only [Except.ok.injEq, Prod.mk.injEq] at h
          obtain ⟨_, rfl⟩ := h
          exact ⟨rfl, rfl⟩
  · split at h
    · cases h
    · simp only [Except.ok.injEq, Prod.mk.injEq] at h
      obtain ⟨_, rfl⟩ := h
      exact ⟨rfl, rfl⟩

theorem initPass_flaggedEmpty : initPass State.flaggedEmpty ≠ State.flaggedEmpty := by
  intro h
  have hm : (initPass State.flaggedEmpty).messages = initializedMessages :=
    initPass_messages _ (by decide)
  rw [h] at hm
  revert hm
  decide

theorem GetMessage_flaggedEmpty :
    Error.GetMessage ⟨Success, by decide⟩ State.flaggedEmpty = .ok (none, State.flaggedEmpty) := by
  rfl

/-! ## Write-once initialisation and concurrent first calls -/

/-- C10: write-once initialisation as an invariant: after any call of `GetMessage` (valid or
invalid argument) the state has `initialized = true` and the table holds all 72 predefined
templates; from that state every further call skips the initialisation pass and leaves the
flag and every table entry unchanged.  The pass is skipped on the strength of the flag alone:
on every state whose flag is set, whatever its cells hold, the guard statement changes
nothing, the call is the statements after the block, and a call that returns leaves flag and
cells as they were; on the flag-set state with null cells, where the pass would write, the
call returns the null cell and writes nothing. -/
theorem GetMessage_write_once (c : ErrorCode) (s : State) (hs : s.WellFormed) :
    (∃ r s', Error.GetMessage c s = .ok (r, s')
      ∧ s'.initialized = true
      ∧ s'.messages = initAssignments.map (fun a => some a.2)
      ∧ s'.messages.length = 72
      ∧ ∀ c', ensureInitialized s' = s'
          ∧ Error.GetMessage c' s' = Error.lookupMessage c' s'
          ∧ ∃ r' s'', Error.GetMessage c' s' = .ok (r', s'')
            ∧ s''.initialized = s'.initialized ∧ s''.messages = s'.messages)
      ∧ (∀ (u : State) (c' : ErrorCode), u.initialized = true →
          ensureInitialized u = u
            ∧ Error.GetMessage c' u = Error.lookupMessage c' u
            ∧ ∀ r' u', Error.GetMessage c' u = .ok (r', u') →
                u'.initialized = true ∧ u'.messages = u.messages)
      ∧ initPass State.flaggedEmpty ≠ State.flaggedEmpty
      ∧ Error.GetMessage ⟨Success, by decide⟩ State.flaggedEmpty
          = .ok (none, State.flaggedEmpty) := by
  refine ⟨?_, ?_, initPass_flaggedEmpty, GetMessage_flaggedEmpty⟩
  · obtain ⟨t, s', h, hwf, hi, hm⟩ := GetMessage_returns c s hs
    refine ⟨some t, s', h, hi, hm, by rw [hm]; decide, ?_⟩
    intro c'
    obtain ⟨t', s'', h', _, hi', hm'⟩ := GetMessage_returns c' s' hwf
    have hskip := ensureInitialized_of_initialized s' hi
    exact ⟨hskip, by rw [Error.GetMessage, hskip], some t', s'', h', hi'.trans hi.symm,
      hm'.trans hm.symm⟩
  · intro u c' hu
    have hskip := ensureInitialized_of_initialized u hu
    have hcall : Error.GetMessage c' u = Error.lookupMessage c' u := by
      rw [Error.GetMessage, hskip]
    refine ⟨hskip, hcall, ?_⟩
    intro r' u' hret
    rw [hcall] at hret
    obtain ⟨hflag, hcells⟩ := lookupMessage_statics c' u r' u' hret
    exact ⟨hflag.trans hu, hcells⟩

theorem GetMessage_write_once_witness :
    (State.fresh [] "").WellFormed
      ∧ (∃ r s', Error.GetMessage ⟨-5, by decide⟩ (State.fresh [] "") = .ok (r, s')
        ∧ s'.initialized = true
        ∧ s'.messages = initAssignments.map (fun a => some a.2)
        ∧ s'.messages.length = 72
        ∧ ∀ c', ensureInitialized s' = s'
            ∧ Error.GetMessage c' s' = Error.lookupMessage c' s'
            ∧ ∃ r' s'', Error.GetMessage c' s' = .ok (r', s'')
              ∧ s''.initialized = s'.initialized ∧ s''.messages = s'.messages)
      ∧ (∀ (u : State) (c' : ErrorCode), u.initialized = true →
          ensureInitialized u = u
            ∧ Error.GetMessage c' u = Error.lookupMessage c' u
            ∧ ∀ r' u', Error.GetMessage c' u = .ok (r', u') →
                u'.initialized = true ∧ u'.messages = u.messages)
      ∧ initPass State.flaggedEmpty ≠ State.flaggedEmpty
      ∧ Error.GetMessage ⟨Success, by decide⟩ State.flaggedEmpty
          = .ok (none, State.flaggedEmpty) :=
  ⟨fresh_wellFormed [] "",
    GetMessage_write_once ⟨-5, by decide⟩ (State.fresh [] "") (fresh_wellFormed [] "")⟩

end Ember
